import Mathlib

/-!
Shallow embedding of `src/google_client.py` (repository `google_client`).

The module defines a pydantic model `GoogleSearchQueryParameter`, a client
class `GoogleClient` whose constructor resolves credentials from explicit
arguments or from the process environment, a `search` method that issues one
remote request and returns the `items` field of the decoded response, and a
`search_query_parameter` method that validates the query parameters and drops
unset (None) fields from the resulting mapping.

Python `None` is modelled with `Option`; a decoded JSON response is modelled
by the `Json` inductive; the remote transport is a parameter of `search`
(a function from the issued request to the decoded response); the process
environment is a parameter of the constructor (a function from variable name
to optional value, as `os.getenv`).  Exceptions are modelled with `Except`.
-/

/-- A scalar value held in the options mapping: the `num` field is an
integer, every other field is a string. -/
inductive Scalar where
  | int (n : Int)
  | str (s : String)
deriving Repr, DecidableEq

/-- pydantic `ValidationError` raised by `GoogleSearchQueryParameter`:
the only constrained field is `num` with bounds `ge=1, le=100`. -/
inductive ValidationError where
  | numOutOfRange (value : Int) (ge : Int) (le : Int)
deriving Repr, DecidableEq

/-- The pydantic model of `src/google_client.py` lines 6-29: every field is
optional (`int | None` or `str | None`). -/
structure GoogleSearchQueryParameter where
  num : Option Int
  start : Option String
  lr : Option String
  sort : Option String
  dateRestrict : Option String
  exactTerms : Option String
  excludeTerms : Option String
  safe : Option String
deriving Repr, DecidableEq

/-- pydantic validation of the model: `num: int | None = Field(default=10,
ge=1, le=100)` rejects a non-null `num` outside `[1,100]` and accepts `None`;
no other field is constrained.  Returns the validated model or the
`ValidationError` the constructor raises. -/
def GoogleSearchQueryParameter.validate (num : Option Int)
    (start lr sort dateRestrict exactTerms excludeTerms safe : Option String) :
    Except ValidationError GoogleSearchQueryParameter :=
  match num with
  | none =>
      .ok ⟨none, start, lr, sort, dateRestrict, exactTerms, excludeTerms, safe⟩
  | some n =>
      if 1 ≤ n ∧ n ≤ 100 then
        .ok ⟨some n, start, lr, sort, dateRestrict, exactTerms, excludeTerms, safe⟩
      else
        .error (.numOutOfRange n 1 100)

/-- The dump `model_dump()`: the field-name/value pairs of the model, in
field declaration order, with Python `None` as `Option.none`. -/
def GoogleSearchQueryParameter.model_dump (p : GoogleSearchQueryParameter) :
    List (String × Option Scalar) :=
  [("num", p.num.map Scalar.int),
   ("start", p.start.map Scalar.str),
   ("lr", p.lr.map Scalar.str),
   ("sort", p.sort.map Scalar.str),
   ("dateRestrict", p.dateRestrict.map Scalar.str),
   ("exactTerms", p.exactTerms.map Scalar.str),
   ("excludeTerms", p.excludeTerms.map Scalar.str),
   ("safe", p.safe.map Scalar.str)]

/-- The dict comprehension of line 87:
`k: v for k, v in query_parameter.model_dump().items() if v is not None`. -/
def dropNone (l : List (String × Option Scalar)) : List (String × Scalar) :=
  l.filterMap (fun kv => kv.2.map (fun v => (kv.1, v)))

/-- A decoded JSON document, as returned by the transport. -/
inductive Json where
  | str (s : String)
  | int (n : Int)
  | arr (elems : List Json)
  | obj (fields : List (String × Json))
deriving Repr

/-- Python subscripting `res[k]` on the decoded response: a successful
lookup in a JSON object; anything else (missing key, non-object) raises. -/
def Json.getKey : Json → String → Option Json
  | .obj fields, k => List.lookup k fields
  | _, _ => none

/-- The lookup failure that line 60 raises when the decoded response has
no `items` key (Python `KeyError`). -/
inductive SearchError where
  | keyError (key : String)
deriving Repr, DecidableEq

/-- The client object: the two credentials stored by `__init__`
(lines 46-47), each possibly absent. -/
structure GoogleClient where
  custom_search_api_key : Option String
  cse_id : Option String
deriving Repr, DecidableEq

/-- Python truthiness test `not x` on an optional string: true for `None`
and for the empty string. -/
def falsy : Option String → Bool
  | none => true
  | some s => s.isEmpty

/-- The constructor `GoogleClient.__init__(api_key=None, cse_id=None)`
(lines 33-47): each credential falls back to its environment variable when
the supplied argument is falsy (`if not api_key`, `if not cse_id`), then
both are stored.  `env` models `os.getenv`. -/
def GoogleClient.init (env : String → Option String)
    (api_key : Option String := none) (cse_id : Option String := none) :
    GoogleClient :=
  let api_key := if falsy api_key then env "CUSTOM_SEARCH_API_KEY" else api_key
  let cse_id := if falsy cse_id then env "SEARCH_ENGINE_ID" else cse_id
  ⟨api_key, cse_id⟩

/-- The one outbound request of `search` (lines 57-59): the developer key
passed to `build`, the query `q`, the engine id `cx`, and the extra keyword
options `**kwargs`. -/
structure Request where
  developerKey : Option String
  q : String
  cx : Option String
  params : List (String × Scalar)
deriving Repr, DecidableEq

/-- The request `search` issues for a given query and options. -/
def GoogleClient.request (self : GoogleClient) (query : String)
    (kwargs : List (String × Scalar)) : Request :=
  ⟨self.custom_search_api_key, query, self.cse_id, kwargs⟩

/-- The method `GoogleClient.search(query, **kwargs)` (lines 49-60): issue
the request through the transport and return the `items` entry of the
decoded response; a response with no `items` key raises a `KeyError`.
`transport` models the remote round trip
`build(...).cse().list(...).execute()`. -/
def GoogleClient.search (transport : Request → Json) (self : GoogleClient)
    (query : String) (kwargs : List (String × Scalar)) :
    Except SearchError Json :=
  let res := transport (self.request query kwargs)
  match res.getKey "items" with
  | some items => .ok items
  | none => .error (.keyError "items")

/-- The method `GoogleClient.search_query_parameter` (lines 62-88): build
the pydantic model from the arguments (defaults `num=10`, `lr="lang_ja"`,
all else `None`), propagate its `ValidationError`, and return the dump with
the `None`-valued fields dropped.  `self` is unused by the source method. -/
def GoogleClient.search_query_parameter (self : GoogleClient)
    (num : Option Int := some 10) (start : Option String := none)
    (lr : Option String := some "lang_ja") (sort : Option String := none)
    (dateRestrict : Option String := none) (exactTerms : Option String := none)
    (excludeTerms : Option String := none) (safe : Option String := none) :
    Except ValidationError (List (String × Scalar)) :=
  match GoogleSearchQueryParameter.validate num start lr sort
      dateRestrict exactTerms excludeTerms safe with
  | .ok query_parameter => .ok (dropNone query_parameter.model_dump)
  | .error e => .error e

/-! Helper lemmas about the filtered options mapping. -/

/-- Membership in the filtered mapping: a key/value pair survives
`dropNone` exactly when the dump holds that key with that non-null value. -/
theorem mem_dropNone_iff (l : List (String × Option Scalar)) (k : String)
    (v : Scalar) : (k, v) ∈ dropNone l ↔ (k, some v) ∈ l := by
  constructor
  · intro h
    rcases List.mem_filterMap.mp h with ⟨⟨k', ov⟩, hmem, heq⟩
    cases ov with
    | none => simp at heq
    | some w =>
      simp only [Option.map_some', Option.some.injEq, Prod.mk.injEq] at heq
      obtain ⟨hk, hv⟩ := heq
      subst hk
      subst hv
      exact hmem
  · intro h
    exact List.mem_filterMap.mpr ⟨(k, some v), h, rfl⟩

/-- Looking a key up in the filtered mapping gives nothing when every entry
of the dump either carries a different key or holds a null value. -/
theorem lookup_dropNone_eq_none (k : String) :
    ∀ l : List (String × Option Scalar),
      (∀ p ∈ l, p.1 = k → p.2 = none) →
      List.lookup k (dropNone l) = none := by
  intro l
  induction l with
  | nil => intro _; rfl
  | cons hd tl ih =>
    intro h
    obtain ⟨k', v⟩ := hd
    have htl : ∀ p ∈ tl, p.1 = k → p.2 = none :=
      fun p hp => h p (List.mem_cons_of_mem _ hp)
    cases v with
    | none =>
      simpa [dropNone] using ih htl
    | some s =>
      have hk : k' ≠ k := by
        intro hkk
        exact Option.noConfusion (h (k', some s) (List.mem_cons_self _ _) hkk)
      have hb : (k == k') = false := beq_eq_false_iff_ne.mpr (Ne.symm hk)
      simpa [dropNone, List.lookup, hb] using ih htl

/-! Claims. -/

/-- C1: for every integer resultCount (`num`) in the range 1 to 100, the
parameter builder `search_query_parameter` succeeds, and the returned
mapping binds the key `num` to exactly that value, whatever the other
arguments and the client are. -/
theorem search_query_parameter_in_range_keeps_num (c : GoogleClient)
    (n : Int) (h1 : 1 ≤ n) (h2 : n ≤ 100)
    (start lr sort dateRestrict exactTerms excludeTerms safe : Option String) :
    ∃ m, c.search_query_parameter (some n) start lr sort dateRestrict
        exactTerms excludeTerms safe = .ok m ∧
      List.lookup "num" m = some (Scalar.int n) := by
  refine ⟨dropNone (GoogleSearchQueryParameter.mk (some n) start lr sort
    dateRestrict exactTerms excludeTerms safe).model_dump, ?_, ?_⟩
  · simp [GoogleClient.search_query_parameter,
      GoogleSearchQueryParameter.validate, h1, h2]
  · simp [dropNone, GoogleSearchQueryParameter.model_dump, List.lookup]

/-- Witness for C1 at resultCount 42. -/
theorem search_query_parameter_in_range_keeps_num_witness :
    ∃ m, (GoogleClient.mk none none).search_query_parameter (some 42) none
        (some "lang_ja") none none none none none = .ok m ∧
      List.lookup "num" m = some (Scalar.int 42) :=
  search_query_parameter_in_range_keeps_num ⟨none, none⟩ 42 (by decide)
    (by decide) none (some "lang_ja") none none none none none

/-- C2: for every integer resultCount (`num`) outside the range 1 to 100,
`search_query_parameter` fails with the pydantic `ValidationError` naming
the field value and the allowed range, instead of returning a mapping; the
value is never clamped into range. -/
theorem search_query_parameter_out_of_range_fails (c : GoogleClient)
    (n : Int) (h : n < 1 ∨ 100 < n)
    (start lr sort dateRestrict exactTerms excludeTerms safe : Option String) :
    c.search_query_parameter (some n) start lr sort dateRestrict
      exactTerms excludeTerms safe = .error (.numOutOfRange n 1 100) := by
  have hn : ¬(1 ≤ n ∧ n ≤ 100) := by omega
  simp [GoogleClient.search_query_parameter,
    GoogleSearchQueryParameter.validate, hn]

/-- Witness for C2 at resultCount 0 and at resultCount 101. -/
theorem search_query_parameter_out_of_range_fails_witness :
    (GoogleClient.mk none none).search_query_parameter (some 0) none
        (some "lang_ja") none none none none none
      = .error (.numOutOfRange 0 1 100) ∧
    (GoogleClient.mk none none).search_query_parameter (some 101) none
        (some "lang_ja") none none none none none
      = .error (.numOutOfRange 101 1 100) :=
  ⟨search_query_parameter_out_of_range_fails ⟨none, none⟩ 0
      (Or.inl (by decide)) none (some "lang_ja") none none none none none,
    search_query_parameter_out_of_range_fails ⟨none, none⟩ 101
      (Or.inr (by decide)) none (some "lang_ja") none none none none none⟩

/-- C3: on success, the mapping returned by `search_query_parameter`
contains exactly the keys whose value is non-null after applying the
defaults — no key is ever bound to null, because the output pairs keys with
plain `Scalar` values.  In particular the all-defaults call yields exactly
num 10 and lr lang_ja, and supplying only exactTerms foo adds exactly the
exactTerms foo entry. -/
theorem search_query_parameter_omits_unset (c : GoogleClient) :
    c.search_query_parameter
      = .ok [("num", Scalar.int 10), ("lr", Scalar.str "lang_ja")] ∧
    c.search_query_parameter (some 10) none (some "lang_ja") none none
        (some "foo") none none
      = .ok [("num", Scalar.int 10), ("lr", Scalar.str "lang_ja"),
             ("exactTerms", Scalar.str "foo")] ∧
    ∀ (num : Option Int)
      (start lr sort dateRestrict exactTerms excludeTerms safe : Option String)
      (m : List (String × Scalar)),
      c.search_query_parameter num start lr sort dateRestrict exactTerms
        excludeTerms safe = .ok m →
      ∀ k v, ((k, v) ∈ m ↔ (k, some v) ∈
        (GoogleSearchQueryParameter.mk num start lr sort dateRestrict
          exactTerms excludeTerms safe).model_dump) := by
  refine ⟨rfl, rfl, ?_⟩
  intro num start lr sort dateRestrict exactTerms excludeTerms safe m hm k v
  cases num with
  | none =>
    simp only [GoogleClient.search_query_parameter,
      GoogleSearchQueryParameter.validate, Except.ok.injEq] at hm
    subst hm
    exact mem_dropNone_iff _ k v
  | some n =>
    by_cases hin : 1 ≤ n ∧ n ≤ 100
    · simp only [GoogleClient.search_query_parameter,
        GoogleSearchQueryParameter.validate, if_pos hin,
        Except.ok.injEq] at hm
      subst hm
      exact mem_dropNone_iff _ k v
    · simp [GoogleClient.search_query_parameter,
        GoogleSearchQueryParameter.validate, if_neg hin] at hm

/-- Witness for C3: the all-defaults call on a concrete client, and one
instance of the membership characterization at key num. -/
theorem search_query_parameter_omits_unset_witness :
    (GoogleClient.mk none none).search_query_parameter
      = .ok [("num", Scalar.int 10), ("lr", Scalar.str "lang_ja")] ∧
    (("num", Scalar.int 10)
        ∈ [("num", Scalar.int 10), ("lr", Scalar.str "lang_ja")] ↔
      ("num", some (Scalar.int 10)) ∈
        (GoogleSearchQueryParameter.mk (some 10) none (some "lang_ja") none
          none none none none).model_dump) := by
  have h := search_query_parameter_omits_unset ⟨none, none⟩
  exact ⟨h.1, h.2.2 (some 10) none (some "lang_ja") none none none none none
    _ h.1 "num" (Scalar.int 10)⟩

/-- C4: whenever the decoded response payload has no `items` key, `search`
fails with the `KeyError` on `items` — it never returns a value, in
particular never an empty sequence — whatever the client, the query and
the options. -/
theorem search_missing_items_raises (payload : Json)
    (h : payload.getKey "items" = none) (c : GoogleClient) (query : String)
    (kwargs : List (String × Scalar)) :
    GoogleClient.search (fun _ => payload) c query kwargs
      = .error (.keyError "items") := by
  simp [GoogleClient.search, h]

/-- Witness for C4: a stubbed transport answering an object without an
`items` key. -/
theorem search_missing_items_raises_witness :
    GoogleClient.search (fun _ => Json.obj [("error", Json.str "quota")])
      ⟨some "K", some "C"⟩ "q" [] = .error (.keyError "items") :=
  search_missing_items_raises (Json.obj [("error", Json.str "quota")]) rfl
    ⟨some "K", some "C"⟩ "q" []

/-- C5: explicit constructor arguments take precedence over the
environment — with apiKey K and collectionId C supplied, the stored
credentials are exactly K and C for every environment, and the request
issued at call time carries exactly them; when an argument is not supplied,
the credential resolves from CUSTOM_SEARCH_API_KEY resp. SEARCH_ENGINE_ID. -/
theorem init_explicit_overrides_env (env : String → Option String)
    (query : String) (kwargs : List (String × Scalar)) :
    (GoogleClient.init env (some "K") (some "C")).custom_search_api_key
      = some "K" ∧
    (GoogleClient.init env (some "K") (some "C")).cse_id = some "C" ∧
    (GoogleClient.init env (some "K") (some "C")).request query kwargs
      = ⟨some "K", query, some "C", kwargs⟩ ∧
    GoogleClient.init env none none
      = ⟨env "CUSTOM_SEARCH_API_KEY", env "SEARCH_ENGINE_ID"⟩ :=
  ⟨rfl, rfl, rfl, rfl⟩

/-- C6: construction is total — it yields a client for every environment
and every combination of arguments, including when both credentials resolve
to absent; the credential-less client still issues its request at the first
`search` call, carrying absent credentials, so any credential failure comes
from the transport at call time, not from construction. -/
theorem init_never_fails (env : String → Option String)
    (api_key cse_id : Option String) :
    (∃ c : GoogleClient, GoogleClient.init env api_key cse_id = c) ∧
    GoogleClient.init (fun _ => none) none none = ⟨none, none⟩ ∧
    (∀ (query : String) (kwargs : List (String × Scalar)),
      (GoogleClient.init (fun _ => none) none none).request query kwargs
        = ⟨none, query, none, kwargs⟩) :=
  ⟨⟨_, rfl⟩, rfl, fun _ _ => rfl⟩

/-- C7: whenever the decoded response payload has an `items` entry, `search`
returns exactly that entry, unmodified, whatever the client, the query and
the options. -/
theorem search_returns_items (payload items : Json)
    (h : payload.getKey "items" = some items) (c : GoogleClient)
    (query : String) (kwargs : List (String × Scalar)) :
    GoogleClient.search (fun _ => payload) c query kwargs = .ok items := by
  simp [GoogleClient.search, h]

/-- Witness for C7: a stubbed transport answering one record with title T,
link L and snippet S; search on query q returns that one-element sequence. -/
theorem search_returns_items_witness :
    GoogleClient.search
      (fun _ => Json.obj [("items", Json.arr [Json.obj
        [("title", Json.str "T"), ("link", Json.str "L"),
         ("snippet", Json.str "S")]])])
      ⟨some "K", some "C"⟩ "q" []
    = .ok (Json.arr [Json.obj
        [("title", Json.str "T"), ("link", Json.str "L"),
         ("snippet", Json.str "S")]]) :=
  search_returns_items
    (Json.obj [("items", Json.arr [Json.obj
      [("title", Json.str "T"), ("link", Json.str "L"),
       ("snippet", Json.str "S")]])])
    (Json.arr [Json.obj
      [("title", Json.str "T"), ("link", Json.str "L"),
       ("snippet", Json.str "S")]])
    rfl ⟨some "K", some "C"⟩ "q" []

/-- C8: `search_query_parameter` is pure and deterministic — its result is
the same for any two clients (the held state plays no role, so no client
mutation can influence it), and the embedding takes neither an environment
nor a transport, reflecting that the source method touches no I/O; equal
arguments give equal mappings. -/
theorem search_query_parameter_pure (c1 c2 : GoogleClient)
    (num : Option Int)
    (start lr sort dateRestrict exactTerms excludeTerms safe : Option String) :
    c1.search_query_parameter num start lr sort dateRestrict exactTerms
      excludeTerms safe
    = c2.search_query_parameter num start lr sort dateRestrict exactTerms
      excludeTerms safe := rfl

/-- C9: the environment fallback triggers on any falsy credential argument,
not only on an omitted one — an explicit empty string for apiKey or for
collectionId is replaced by the corresponding environment variable, for
every environment. -/
theorem init_empty_string_falls_back (env : String → Option String) :
    GoogleClient.init env (some "") (some "")
      = ⟨env "CUSTOM_SEARCH_API_KEY", env "SEARCH_ENGINE_ID"⟩ ∧
    GoogleClient.init env (some "") (some "C")
      = ⟨env "CUSTOM_SEARCH_API_KEY", some "C"⟩ ∧
    GoogleClient.init env (some "K") (some "")
      = ⟨some "K", env "SEARCH_ENGINE_ID"⟩ :=
  ⟨rfl, rfl, rfl⟩

/-- C10: `search_query_parameter` accepts num equal to None without a
validation error, and the returned mapping omits the num key entirely; the
range check applies only to a non-null num. -/
theorem search_query_parameter_num_none (c : GoogleClient)
    (start lr sort dateRestrict exactTerms excludeTerms safe : Option String) :
    ∃ m, c.search_query_parameter none start lr sort dateRestrict exactTerms
        excludeTerms safe = .ok m ∧
      List.lookup "num" m = none := by
  refine ⟨_, rfl, ?_⟩
  apply lookup_dropNone_eq_none
  intro p hp hk
  simp only [GoogleSearchQueryParameter.model_dump, List.mem_cons,
    List.not_mem_nil, or_false] at hp
  rcases hp with rfl | rfl | rfl | rfl | rfl | rfl | rfl | rfl <;>
    first
      | rfl
      | simp at hk
